import Mathlib

/-!
# log_levels: a shallow embedding of `log.c` / `log.h`

The module keeps three process-wide function pointers (formatter, timestamp
source, byte sink) and forwards to them.  The embedding makes that state an
explicit record, threads an abstract outside world `W` through every callback,
and returns `none` where the C code would call through a null pointer.

Conventions.
* A nullable function pointer is an `Option` of a Lean function.  Callbacks act
  on the outside world only; they do not reach back into the three pointers.
* A C string is a `String`; a variadic argument is a `CArg`.
* `int` values are `Int`; the one narrowing cast in the source
  (`(uint32_t)` in `log_timestamp`) is an explicit `% 2 ^ 32`.
* A `char *` into a buffer is the list of bytes from that address onward, so
  `ptr++` is `List.tail`.
* The build-time constants `LOG_LOCAL_LEVEL`, `LOG_CONFIG_TIMESTAMP` and the
  `<inttypes.h>` macro `PRIu32` are fields of `BuildConfig`.
-/

namespace LogLevels

/-! ## Data types (`log.h`) -/

/-- The enum `log_level_t`; a C enum is an `int`, and the macros compare it as one. -/
abbrev log_level_t := Int

def LOG_NONE : log_level_t := 0
def LOG_ERROR : log_level_t := 1
def LOG_WARN : log_level_t := 2
def LOG_INFO : log_level_t := 3
def LOG_DEBUG : log_level_t := 4
def LOG_VERBOSE : log_level_t := 5
def LOG_MAX : log_level_t := 6

def LOG_NO_TIMESTAMP : Int := 0
def LOG_TIMESTAMP : Int := 1

/-- One value passed through `...` (after the default argument promotions). -/
inductive CArg where
  | int (v : Int)
  | uint (v : Nat)
  | chr (c : Char)
  | str (s : String)
  deriving DecidableEq, Repr

/-- The argument cursor `va_list`: the arguments not yet consumed. -/
structure va_list where
  rest : List CArg
  deriving DecidableEq, Repr

/-- The cursor `va_start` yields: it stands on the first variadic argument. -/
def va_start (args : List CArg) : va_list := ⟨args⟩

/-- Type `int (*vprintf_like_t)(const char *, va_list)`. -/
abbrev vprintf_like_t (W : Type) := String → va_list → W → Int × W

/-- Type `uint32_t (*get_timestamp_t)(void)`. -/
abbrev get_timestamp_t (W : Type) := W → Nat × W

/-- Type `int (*log_out_t)(uint8_t *data, uint16_t size)`. -/
abbrev log_out_t (W : Type) := List Nat → Nat → W → Int × W

/-! ## Local variables (`log.c`, lines 33-35) -/

/-- The three static function pointers of `log.c`. -/
structure State (W : Type) where
  s_log_print_func : Option (vprintf_like_t W)
  s_log_get_timestamp_func : Option (get_timestamp_t W)
  s_log_out_func : Option (log_out_t W)

/-- The static initialisers: `&vprintf`, `NULL`, `NULL`.  The C library's
`vprintf` is a parameter. -/
def State.init {W : Type} (vprintf : vprintf_like_t W) : State W :=
  { s_log_print_func := some vprintf
    s_log_get_timestamp_func := none
    s_log_out_func := none }

/-! ## Public functions (`log.c`) -/

section Functions

variable {W : Type}

/-- Function `log_set_vprintf`: returns the old pointer and the updated state. -/
def log_set_vprintf (func : Option (vprintf_like_t W)) (s : State W) :
    Option (vprintf_like_t W) × State W :=
  let orig_func := s.s_log_print_func
  (orig_func, { s with s_log_print_func := func })

/-- Function `log_set_timestamp`. -/
def log_set_timestamp (func : Option (get_timestamp_t W)) (s : State W) : State W :=
  { s with s_log_get_timestamp_func := func }

/-- Function `log_timestamp`: calls through the pointer; a null pointer is `none`. -/
def log_timestamp (s : State W) (w : W) : Option (Nat × W) :=
  match s.s_log_get_timestamp_func with
  | none => none
  | some f => some ((f w).1 % 2 ^ 32, (f w).2)

/-- Function `log_set_output`. -/
def log_set_output (func : Option (log_out_t W)) (s : State W) : State W :=
  { s with s_log_out_func := func }

/-- Function `log_writev`: calls the formatter and drops its `int` result. -/
def log_writev (_level : log_level_t) (_tag : String) (format : String) (args : va_list)
    (s : State W) (w : W) : Option W :=
  match s.s_log_print_func with
  | none => none
  | some f => some (f format args w).2

/-- Function `log_write`: `va_start`, `log_writev`, `va_end`. -/
def log_write (level : log_level_t) (tag : String) (format : String) (args : List CArg)
    (s : State W) (w : W) : Option W :=
  let list := va_start args
  log_writev level tag format list s w

/-- The `for` loop of `_write`, entered with the current `data_inx` and `ptr`. -/
def write_loop (s : State W) (len : Int) (data_inx : Int) (ptr : List Nat) (w : W) :
    Option W :=
  if data_inx < len then
    match s.s_log_out_func with
    | none => none
    | some out => write_loop s len (data_inx + 1) ptr.tail (out ptr 1 w).2
  else some w
termination_by (len - data_inx).toNat
decreasing_by omega

/-- Function `_write`: runs the loop from `data_inx = 0` and returns `len`. -/
def _write (_file : Int) (ptr : List Nat) (len : Int) (s : State W) (w : W) :
    Option (Int × W) :=
  match write_loop s len 0 ptr w with
  | none => none
  | some w1 => some (len, w1)

end Functions

/-! ## Build-time configuration and macros (`log.h`) -/

/-- The constants fixed before compilation.  `LOG_LOCAL_LEVEL` is the threshold,
`LOG_CONFIG_TIMESTAMP` is tested by `#if` (non-zero means on), and `PRIu32` is
the conversion suffix `<inttypes.h>` supplies for `uint32_t`. -/
structure BuildConfig where
  LOG_LOCAL_LEVEL : Int
  LOG_CONFIG_TIMESTAMP : Int
  PRIu32 : String

/-- The configuration when nothing is defined on the command line:
`LOG_LOCAL_LEVEL` falls back to `LOG_MAX` (lines 122-124) and an undefined
`LOG_CONFIG_TIMESTAMP` reads as `0` in `#if`. -/
def BuildConfig.default (PRIu32 : String) : BuildConfig :=
  { LOG_LOCAL_LEVEL := LOG_MAX, LOG_CONFIG_TIMESTAMP := 0, PRIu32 := PRIu32 }

def ANSI_COLOR_RED : String := "\x1b[31m"
def ANSI_COLOR_GREEN : String := "\x1b[32m"
def ANSI_COLOR_YELLOW : String := "\x1b[33m"
def ANSI_COLOR_MAGENTA : String := "\x1b[35m"
def ANSI_COLOR_CYAN : String := "\x1b[36m"
def ANSI_COLOR_RESET : String := "\x1b[0m"

/-- The `letter` argument of `LOG_FORMAT`: the tokens for which a
`LOG_COLOR_` macro exists. -/
inductive Letter where
  | E | W | I | D | V
  deriving DecidableEq, Repr

/-- The stringification `#letter`. -/
def Letter.stringize : Letter → String
  | .E => "E"
  | .W => "W"
  | .I => "I"
  | .D => "D"
  | .V => "V"

/-- The token paste `LOG_COLOR_ ## letter` (lines 135-139). -/
def LOG_COLOR : Letter → String
  | .E => ANSI_COLOR_RED
  | .W => ANSI_COLOR_YELLOW
  | .I => ANSI_COLOR_GREEN
  | .D => ANSI_COLOR_MAGENTA
  | .V => ANSI_COLOR_CYAN

def LOG_RESET_COLOR : String := ANSI_COLOR_RESET

/-- Macro `LOG_FORMAT(letter, format)`: adjacent string literals concatenate. -/
def LOG_FORMAT (cfg : BuildConfig) (letter : Letter) (format : String) : String :=
  if cfg.LOG_CONFIG_TIMESTAMP ≠ 0 then
    LOG_COLOR letter ++ letter.stringize ++ " (%" ++ cfg.PRIu32 ++ ") %s: " ++ format
      ++ LOG_RESET_COLOR ++ "\r\n"
  else
    LOG_COLOR letter ++ letter.stringize ++ " %s: " ++ format ++ LOG_RESET_COLOR ++ "\r\n"

/-- The actual arguments of one `log_write` call. -/
structure LogWriteCall where
  level : log_level_t
  tag : String
  format : String
  args : List CArg
  deriving DecidableEq, Repr

section Macros

variable {W : Type}

/-- Performing a `log_write` call. -/
def LogWriteCall.run (c : LogWriteCall) (s : State W) (w : W) : Option W :=
  log_write c.level c.tag c.format c.args s w

/-- The `log_write` call in the branch `LOG_LEVEL` takes when
`LOG_CONFIG_TIMESTAMP` is on (lines 157-163); `ts` is the value of the
`log_timestamp()` argument of that branch. -/
def LOG_LEVEL_call_ts (cfg : BuildConfig) (level : log_level_t) (tag format : String)
    (args : List CArg) (ts : Nat) : LogWriteCall :=
  if level = LOG_ERROR then
    ⟨LOG_ERROR, tag, LOG_FORMAT cfg .E format, .uint ts :: .str tag :: args⟩
  else if level = LOG_WARN then
    ⟨LOG_WARN, tag, LOG_FORMAT cfg .W format, .uint ts :: .str tag :: args⟩
  else if level = LOG_DEBUG then
    ⟨LOG_DEBUG, tag, LOG_FORMAT cfg .D format, .uint ts :: .str tag :: args⟩
  else if level = LOG_VERBOSE then
    ⟨LOG_VERBOSE, tag, LOG_FORMAT cfg .V format, .uint ts :: .str tag :: args⟩
  else
    ⟨LOG_INFO, tag, LOG_FORMAT cfg .I format, .uint ts :: .str tag :: args⟩

/-- The `log_write` call in the branch `LOG_LEVEL` takes when
`LOG_CONFIG_TIMESTAMP` is off (lines 165-171). -/
def LOG_LEVEL_call (cfg : BuildConfig) (level : log_level_t) (tag format : String)
    (args : List CArg) : LogWriteCall :=
  if level = LOG_ERROR then
    ⟨LOG_ERROR, tag, LOG_FORMAT cfg .E format, .str tag :: args⟩
  else if level = LOG_WARN then
    ⟨LOG_WARN, tag, LOG_FORMAT cfg .W format, .str tag :: args⟩
  else if level = LOG_DEBUG then
    ⟨LOG_DEBUG, tag, LOG_FORMAT cfg .D format, .str tag :: args⟩
  else if level = LOG_VERBOSE then
    ⟨LOG_VERBOSE, tag, LOG_FORMAT cfg .V format, .str tag :: args⟩
  else
    ⟨LOG_INFO, tag, LOG_FORMAT cfg .I format, .str tag :: args⟩

/-- Macro `LOG_LEVEL(level, tag, format, ...)`.  With timestamps on, the
argument `log_timestamp()` is evaluated before `log_write` is entered. -/
def LOG_LEVEL (cfg : BuildConfig) (level : log_level_t) (tag format : String)
    (args : List CArg) (s : State W) (w : W) : Option W :=
  if cfg.LOG_CONFIG_TIMESTAMP ≠ 0 then
    match log_timestamp s w with
    | none => none
    | some (ts, w1) => (LOG_LEVEL_call_ts cfg level tag format args ts).run s w1
  else
    (LOG_LEVEL_call cfg level tag format args).run s w

/-- Macro `LOG_LEVEL_LOCAL(level, tag, format, ...)` (lines 178-180). -/
def LOG_LEVEL_LOCAL (cfg : BuildConfig) (level : log_level_t) (tag format : String)
    (args : List CArg) (s : State W) (w : W) : Option W :=
  if cfg.LOG_LOCAL_LEVEL ≥ level then LOG_LEVEL cfg level tag format args s w else some w

def LOGE (cfg : BuildConfig) (tag format : String) (args : List CArg) (s : State W) (w : W) :
    Option W :=
  LOG_LEVEL_LOCAL cfg LOG_ERROR tag format args s w

def LOGW (cfg : BuildConfig) (tag format : String) (args : List CArg) (s : State W) (w : W) :
    Option W :=
  LOG_LEVEL_LOCAL cfg LOG_WARN tag format args s w

def LOGI (cfg : BuildConfig) (tag format : String) (args : List CArg) (s : State W) (w : W) :
    Option W :=
  LOG_LEVEL_LOCAL cfg LOG_INFO tag format args s w

def LOGD (cfg : BuildConfig) (tag format : String) (args : List CArg) (s : State W) (w : W) :
    Option W :=
  LOG_LEVEL_LOCAL cfg LOG_DEBUG tag format args s w

def LOGV (cfg : BuildConfig) (tag format : String) (args : List CArg) (s : State W) (w : W) :
    Option W :=
  LOG_LEVEL_LOCAL cfg LOG_VERBOSE tag format args s w

end Macros

/-! ## Observation devices

Nothing below is part of the module; these are the callbacks and the printf
fragment the properties are observed through. -/

/-- A world that is the log of formatter invocations, oldest first. -/
abbrev FormatterLog := List (String × va_list)

/-- A formatter that appends its own arguments to the log and returns `ret`. -/
def recording_vprintf (ret : Int) : vprintf_like_t FormatterLog :=
  fun format args w => (ret, w ++ [(format, args)])

/-- A timestamp source that reads the world through `g` and leaves it alone. -/
def reading_clock {W : Type} (g : W → Nat) : get_timestamp_t W :=
  fun w => (g w, w)

/-- A world that is the log of sink invocations: the `size` bytes found at
`data`, and `size`. -/
abbrev SinkLog := List (List Nat × Nat)

/-- A sink that logs what it is handed and returns whatever `ret` says. -/
def recording_out (ret : List Nat → Nat → SinkLog → Int) : log_out_t SinkLog :=
  fun data size w => (ret data size w, w ++ [(data.take size, size)])

/-- The runtime level that the branch of `LOG_LEVEL` using `LOG_FORMAT(letter, ...)`
passes to `log_write` (lines 158-162 and 166-170). -/
def Letter.level : Letter → log_level_t
  | .E => LOG_ERROR
  | .W => LOG_WARN
  | .I => LOG_INFO
  | .D => LOG_DEBUG
  | .V => LOG_VERBOSE

/-- The five leveled entry points of lines 150-154, each with the level it is
written with and the letter of that level. -/
def leveled_logs (W : Type) :
    List ((BuildConfig → String → String → List CArg → State W → W → Option W)
      × log_level_t × Letter) :=
  [(LOGE, LOG_ERROR, .E), (LOGW, LOG_WARN, .W), (LOGI, LOG_INFO, .I), (LOGD, LOG_DEBUG, .D),
   (LOGV, LOG_VERBOSE, .V)]

/-! ## Properties of the functions of `log.c` -/

section FunctionFacts

variable {W : Type}

theorem log_writev_of_formatter (level : log_level_t) (tag format : String) (args : va_list)
    (s : State W) (w : W) (f : vprintf_like_t W) (hf : s.s_log_print_func = some f) :
    log_writev level tag format args s w = some (f format args w).2 := by
  simp [log_writev, hf]

theorem run_of_formatter (c : LogWriteCall) (s : State W) (w : W) (f : vprintf_like_t W)
    (hf : s.s_log_print_func = some f) :
    c.run s w = some (f c.format (va_start c.args) w).2 := by
  simp [LogWriteCall.run, log_write, log_writev, hf]

theorem write_loop_recording (ret : List Nat → Nat → SinkLog → Int)
    (s : State SinkLog) (hs : s.s_log_out_func = some (recording_out ret)) (len : Int) :
    ∀ (n : Nat) (data_inx : Int) (ptr : List Nat) (w : SinkLog),
      len - data_inx = (n : Int) →
      write_loop s len data_inx ptr w
        = some (w ++ (List.range n).map (fun i => ((ptr.drop i).take 1, 1))) := by
  intro n
  induction n with
  | zero =>
    intro data_inx ptr w hn
    rw [write_loop]
    have h : ¬ data_inx < len := by omega
    simp [h]
  | succ k ih =>
    intro data_inx ptr w hn
    rw [write_loop]
    have h : data_inx < len := by omega
    have hk : len - (data_inx + 1) = (k : Int) := by omega
    have htail : ∀ i, ptr.tail.drop i = ptr.drop (i + 1) := by
      intro i
      cases ptr <;> simp
    simp [h, hs, recording_out, ih (data_inx + 1) ptr.tail _ hk, List.range_succ_eq_map,
      htail, Function.comp_def]

theorem bytes_at_offsets (buf : List Nat) :
    ∀ N : Nat, N ≤ buf.length →
      (List.range N).map (fun i => ((buf.drop i).take 1, 1))
        = (buf.take N).map (fun b => (([b], 1) : List Nat × Nat)) := by
  induction buf with
  | nil =>
    intro N hN
    have : N = 0 := by simpa using hN
    subst this
    rfl
  | cons b rest ih =>
    intro N hN
    cases N with
    | zero => rfl
    | succ k =>
      have hk : k ≤ rest.length := by simpa using hN
      simp [List.range_succ_eq_map, Function.comp_def, ih k hk]

end FunctionFacts

/-! ## Properties of the printf fragment -/

theorem LOG_LEVEL_recording (cfg : BuildConfig) (level : log_level_t) (tag format : String)
    (args : List CArg) (ret : Int) (g : FormatterLog → Nat) (s0 : State FormatterLog)
    (w : FormatterLog) :
    ∃ e, LOG_LEVEL cfg level tag format args
        (log_set_timestamp (some (reading_clock g))
          (log_set_vprintf (some (recording_vprintf ret)) s0).2) w = some (w ++ [e]) := by
  unfold LOG_LEVEL
  by_cases hts : cfg.LOG_CONFIG_TIMESTAMP = 0 <;>
    simp [hts, log_timestamp, log_set_timestamp, reading_clock, LogWriteCall.run, log_write,
      log_writev, log_set_vprintf, recording_vprintf]

theorem LOG_LEVEL_LOCAL_recording (cfg : BuildConfig) (level : log_level_t)
    (tag format : String) (args : List CArg) (ret : Int) (g : FormatterLog → Nat)
    (s0 : State FormatterLog) (w : FormatterLog) :
    ((∃ e, LOG_LEVEL_LOCAL cfg level tag format args
        (log_set_timestamp (some (reading_clock g))
          (log_set_vprintf (some (recording_vprintf ret)) s0).2) w = some (w ++ [e]))
      ↔ cfg.LOG_LOCAL_LEVEL ≥ level) ∧
    (LOG_LEVEL_LOCAL cfg level tag format args
        (log_set_timestamp (some (reading_clock g))
          (log_set_vprintf (some (recording_vprintf ret)) s0).2) w = some w
      ↔ ¬ cfg.LOG_LOCAL_LEVEL ≥ level) := by
  obtain ⟨e, he⟩ := LOG_LEVEL_recording cfg level tag format args ret g s0 w
  unfold LOG_LEVEL_LOCAL
  by_cases h : cfg.LOG_LOCAL_LEVEL ≥ level
  · simp [h, he]
  · simp [h]

theorem LOG_LEVEL_LOCAL_with_clock {W : Type} (cfg : BuildConfig)
    (hts : cfg.LOG_CONFIG_TIMESTAMP ≠ 0) (l : Letter) (tag format : String) (args : List CArg)
    (s0 : State W) (w : W) (f : vprintf_like_t W) (hf : s0.s_log_print_func = some f)
    (clock : get_timestamp_t W) :
    LOG_LEVEL_LOCAL cfg l.level tag format args (log_set_timestamp (some clock) s0) w
      = if cfg.LOG_LOCAL_LEVEL ≥ l.level then
          some (f (LOG_FORMAT cfg l format)
            (va_start (.uint ((clock w).1 % 2 ^ 32) :: .str tag :: args)) (clock w).2).2
        else some w := by
  unfold LOG_LEVEL_LOCAL LOG_LEVEL
  split_ifs with hT
  · have hrun := fun (c : LogWriteCall) (w1 : W) =>
      run_of_formatter c (log_set_timestamp (some clock) s0) w1 f hf
    simp only [log_timestamp, log_set_timestamp] at hrun ⊢
    rw [hrun]
    cases l <;>
      simp [LOG_LEVEL_call_ts, Letter.level, LOG_ERROR, LOG_WARN, LOG_INFO, LOG_DEBUG,
        LOG_VERBOSE]
  · rfl

/-- C1: `log_set_vprintf` returns the formatter that was active just before the
call and installs its argument; so after `log_set_vprintf(f1)` the call
`log_set_vprintf(f2)` returns `f1` and leaves `f2` active, from every state. -/
theorem log_set_vprintf_returns_previous {W : Type} (s : State W)
    (f1 f2 : Option (vprintf_like_t W)) :
    (log_set_vprintf f1 s).1 = s.s_log_print_func ∧
    (log_set_vprintf f1 s).2.s_log_print_func = f1 ∧
    (log_set_vprintf f2 (log_set_vprintf f1 s).2).1 = f1 ∧
    (log_set_vprintf f2 (log_set_vprintf f1 s).2).2.s_log_print_func = f2 := by
  simp [log_set_vprintf]

/-- C2: with the recording sink installed, `_write(file, ptr, N)` calls the
sink exactly `N` times, the i-th call with the pointer advanced by `i` and size
1, and returns `N`, for every buffer, every `N`, every `file` and whatever the
sink returns; when the buffer holds at least `N` bytes the calls receive its
first `N` bytes, one each, in order. -/
theorem write_forwards_each_byte (ret : List Nat → Nat → SinkLog → Int) (file : Int)
    (buf : List Nat) (N : Nat) (s0 : State SinkLog) (w : SinkLog) :
    _write file buf (N : Int) (log_set_output (some (recording_out ret)) s0) w
      = some ((N : Int), w ++ (List.range N).map (fun i => ((buf.drop i).take 1, 1))) ∧
    (N ≤ buf.length →
      _write file buf (N : Int) (log_set_output (some (recording_out ret)) s0) w
        = some ((N : Int), w ++ (buf.take N).map (fun b => ([b], 1)))) := by
  have h := write_loop_recording ret (log_set_output (some (recording_out ret)) s0) rfl
    (N : Int) N 0 buf w (by omega)
  refine ⟨by simp [_write, h], ?_⟩
  intro hN
  simp [_write, h, bytes_at_offsets buf N hN]

theorem write_forwards_each_byte_witness :
    _write 1 [104, 105, 33] ((2 : Nat) : Int)
        (log_set_output (some (recording_out (fun _ _ _ => -1))) (State.init (fun _ _ w => (0, w))))
        []
      = some (2, [([104], 1), ([105], 1)]) :=
  ((write_forwards_each_byte (fun _ _ _ => -1) 1 [104, 105, 33] 2
    (State.init (fun _ _ w => (0, w))) []).2 (by decide)).trans (by decide)

/-- C3: `log_write(level, tag, format, args...)` is `log_writev` on the list
`va_start` builds from the same arguments; with a formatter `f` active both
are the single invocation `f(format, list)`, and the recording formatter logs
the same one entry for both. -/
theorem log_write_eq_log_writev {W : Type} (level : log_level_t) (tag format : String)
    (args : List CArg) (s : State W) (w : W) :
    log_write level tag format args s w = log_writev level tag format (va_start args) s w ∧
    (∀ f : vprintf_like_t W,
      log_write level tag format args (log_set_vprintf (some f) s).2 w
        = some (f format (va_start args) w).2) ∧
    (∀ (ret : Int) (s1 : State FormatterLog) (l : FormatterLog),
      log_write level tag format args (log_set_vprintf (some (recording_vprintf ret)) s1).2 l
        = some (l ++ [(format, va_start args)]) ∧
      log_writev level tag format (va_start args)
          (log_set_vprintf (some (recording_vprintf ret)) s1).2 l
        = some (l ++ [(format, va_start args)])) := by
  refine ⟨rfl, ?_, ?_⟩
  · intro f
    simp [log_write, log_writev, log_set_vprintf]
  · intro ret s1 l
    simp [log_write, log_writev, log_set_vprintf, recording_vprintf]

/-- C7: `log_writev` does not look at `level` or `tag`: any two (level, tag)
pairs give the same result, which with formatter `f` active is the single
invocation `f(format, args)`; the recording formatter logs exactly one entry,
`(format, args)`, also at level `LOG_NONE`. -/
theorem log_writev_never_filters {W : Type} (format : String) (args : va_list)
    (level1 level2 : log_level_t) (tag1 tag2 : String) (s : State W) (w : W) :
    log_writev level1 tag1 format args s w = log_writev level2 tag2 format args s w ∧
    (∀ f : vprintf_like_t W,
      log_writev level1 tag1 format args (log_set_vprintf (some f) s).2 w
        = some (f format args w).2) ∧
    (∀ (ret : Int) (s1 : State FormatterLog) (l : FormatterLog),
      log_writev level1 tag1 format args (log_set_vprintf (some (recording_vprintf ret)) s1).2 l
        = some (l ++ [(format, args)]) ∧
      log_writev LOG_NONE tag1 format args (log_set_vprintf (some (recording_vprintf ret)) s1).2 l
        = some (l ++ [(format, args)])) := by
  refine ⟨rfl, ?_, ?_⟩
  · intro f
    simp [log_writev, log_set_vprintf]
  · intro ret s1 l
    simp [log_writev, log_set_vprintf, recording_vprintf]

/-- C9: `log_timestamp` fails exactly when no timestamp source is set; it fails
in the initial state; after `log_set_timestamp(fn)` it returns the value of
`fn()` as a 32-bit unsigned number; and `log_set_timestamp` leaves the
formatter and the sink as they were. -/
theorem log_timestamp_iff_configured {W : Type} (s : State W) (w : W)
    (vprintf : vprintf_like_t W) (fn : get_timestamp_t W) :
    ((log_timestamp s w).isSome ↔ s.s_log_get_timestamp_func.isSome) ∧
    log_timestamp (State.init vprintf) w = none ∧
    log_timestamp (log_set_timestamp (some fn) s) w = some ((fn w).1 % 2 ^ 32, (fn w).2) ∧
    (log_set_timestamp (some fn) s).s_log_print_func = s.s_log_print_func ∧
    (log_set_timestamp (some fn) s).s_log_out_func = s.s_log_out_func := by
  refine ⟨?_, rfl, rfl, rfl, rfl⟩
  unfold log_timestamp
  cases s.s_log_get_timestamp_func <;> simp

/-- C4: with the recording formatter and any world-preserving clock installed,
each of `LOGE`, `LOGW`, `LOGI`, `LOGD`, `LOGV` adds exactly one formatter
invocation when the threshold is at least its level and leaves the log
untouched otherwise, for every threshold; at threshold `LOG_WARN` that means
`LOGD` and `LOGV` add nothing while `LOGE` and `LOGW` add one entry, and at
`LOG_MAX` all five add one. -/
theorem leveled_logs_gate (cfg : BuildConfig) (tag format : String) (args : List CArg)
    (ret : Int) (g : FormatterLog → Nat) (s0 : State FormatterLog) (w : FormatterLog) :
    (∀ p ∈ leveled_logs FormatterLog,
      ((∃ e, p.1 cfg tag format args
          (log_set_timestamp (some (reading_clock g))
            (log_set_vprintf (some (recording_vprintf ret)) s0).2) w = some (w ++ [e]))
        ↔ cfg.LOG_LOCAL_LEVEL ≥ p.2.1) ∧
      (p.1 cfg tag format args
          (log_set_timestamp (some (reading_clock g))
            (log_set_vprintf (some (recording_vprintf ret)) s0).2) w = some w
        ↔ ¬ cfg.LOG_LOCAL_LEVEL ≥ p.2.1)) ∧
    (BuildConfig.default cfg.PRIu32).LOG_LOCAL_LEVEL = LOG_MAX ∧
    (∀ p ∈ leveled_logs FormatterLog,
      ∃ e, p.1 { cfg with LOG_LOCAL_LEVEL := LOG_MAX } tag format args
          (log_set_timestamp (some (reading_clock g))
            (log_set_vprintf (some (recording_vprintf ret)) s0).2) w = some (w ++ [e])) ∧
    (LOGD { cfg with LOG_LOCAL_LEVEL := LOG_WARN } tag format args
        (log_set_timestamp (some (reading_clock g))
          (log_set_vprintf (some (recording_vprintf ret)) s0).2) w = some w) ∧
    (LOGV { cfg with LOG_LOCAL_LEVEL := LOG_WARN } tag format args
        (log_set_timestamp (some (reading_clock g))
          (log_set_vprintf (some (recording_vprintf ret)) s0).2) w = some w) ∧
    (∃ e, LOGE { cfg with LOG_LOCAL_LEVEL := LOG_WARN } tag format args
        (log_set_timestamp (some (reading_clock g))
          (log_set_vprintf (some (recording_vprintf ret)) s0).2) w = some (w ++ [e])) ∧
    (∃ e, LOGW { cfg with LOG_LOCAL_LEVEL := LOG_WARN } tag format args
        (log_set_timestamp (some (reading_clock g))
          (log_set_vprintf (some (recording_vprintf ret)) s0).2) w = some (w ++ [e])) := by
  have key := fun (c : BuildConfig) (level : log_level_t) =>
    LOG_LEVEL_LOCAL_recording c level tag format args ret g s0 w
  refine ⟨?_, rfl, ?_, ?_, ?_, ?_, ?_⟩
  · intro p hp
    simp only [leveled_logs, List.mem_cons, List.mem_singleton, List.not_mem_nil, or_false] at hp
    rcases hp with rfl | rfl | rfl | rfl | rfl
    · exact key cfg LOG_ERROR
    · exact key cfg LOG_WARN
    · exact key cfg LOG_INFO
    · exact key cfg LOG_DEBUG
    · exact key cfg LOG_VERBOSE
  · intro p hp
    simp only [leveled_logs, List.mem_cons, List.mem_singleton, List.not_mem_nil, or_false] at hp
    rcases hp with rfl | rfl | rfl | rfl | rfl
    · exact (key { cfg with LOG_LOCAL_LEVEL := LOG_MAX } LOG_ERROR).1.2 (by simp [LOG_MAX, LOG_ERROR])
    · exact (key { cfg with LOG_LOCAL_LEVEL := LOG_MAX } LOG_WARN).1.2 (by simp [LOG_MAX, LOG_WARN])
    · exact (key { cfg with LOG_LOCAL_LEVEL := LOG_MAX } LOG_INFO).1.2 (by simp [LOG_MAX, LOG_INFO])
    · exact (key { cfg with LOG_LOCAL_LEVEL := LOG_MAX } LOG_DEBUG).1.2 (by simp [LOG_MAX, LOG_DEBUG])
    · exact (key { cfg with LOG_LOCAL_LEVEL := LOG_MAX } LOG_VERBOSE).1.2
        (by simp [LOG_MAX, LOG_VERBOSE])
  · exact (key { cfg with LOG_LOCAL_LEVEL := LOG_WARN } LOG_DEBUG).2.2 (by simp [LOG_WARN, LOG_ERROR, LOG_DEBUG, LOG_VERBOSE])
  · exact (key { cfg with LOG_LOCAL_LEVEL := LOG_WARN } LOG_VERBOSE).2.2 (by simp [LOG_WARN, LOG_ERROR, LOG_DEBUG, LOG_VERBOSE])
  · exact (key { cfg with LOG_LOCAL_LEVEL := LOG_WARN } LOG_ERROR).1.2 (by simp [LOG_WARN, LOG_ERROR, LOG_DEBUG, LOG_VERBOSE])
  · exact (key { cfg with LOG_LOCAL_LEVEL := LOG_WARN } LOG_WARN).1.2 (by simp [LOG_WARN, LOG_ERROR, LOG_DEBUG, LOG_VERBOSE])

/-- C6: with timestamps on and a formatter `f` active, each leveled entry point
run after `log_set_timestamp(s1)` and after `log_set_timestamp(s2)` hands `f`
the same format string (same colour, letter and line ending, built from the
same caller format) and the same tag and caller arguments; the only argument
that differs is the leading timestamp, `s1()` in one and `s2()` in the other,
as 32-bit unsigned values.  Below the threshold both runs do nothing. -/
theorem timestamp_source_changes_only_timestamp {W : Type} (cfg : BuildConfig)
    (tag format : String) (args : List CArg) (s0 : State W) (w : W) (f : vprintf_like_t W)
    (s1 s2 : get_timestamp_t W)
    (hts : cfg.LOG_CONFIG_TIMESTAMP ≠ 0) (hf : s0.s_log_print_func = some f) :
    ∀ p ∈ leveled_logs W,
      p.1 cfg tag format args (log_set_timestamp (some s1) s0) w
        = (if cfg.LOG_LOCAL_LEVEL ≥ p.2.1 then
            some (f (LOG_FORMAT cfg p.2.2 format)
              (va_start (.uint ((s1 w).1 % 2 ^ 32) :: .str tag :: args)) (s1 w).2).2
          else some w) ∧
      p.1 cfg tag format args (log_set_timestamp (some s2) s0) w
        = (if cfg.LOG_LOCAL_LEVEL ≥ p.2.1 then
            some (f (LOG_FORMAT cfg p.2.2 format)
              (va_start (.uint ((s2 w).1 % 2 ^ 32) :: .str tag :: args)) (s2 w).2).2
          else some w) ∧
      LOG_FORMAT cfg p.2.2 format
        = LOG_COLOR p.2.2 ++ p.2.2.stringize ++ " (%" ++ cfg.PRIu32 ++ ") %s: " ++ format
            ++ LOG_RESET_COLOR ++ "\r\n" := by
  intro p hp
  have key := fun (l : Letter) (clock : get_timestamp_t W) =>
    LOG_LEVEL_LOCAL_with_clock cfg hts l tag format args s0 w f hf clock
  have hfmt : ∀ l : Letter, LOG_FORMAT cfg l format
      = LOG_COLOR l ++ l.stringize ++ " (%" ++ cfg.PRIu32 ++ ") %s: " ++ format
          ++ LOG_RESET_COLOR ++ "\r\n" := by
    intro l
    simp [LOG_FORMAT, hts]
  simp only [leveled_logs, List.mem_cons, List.mem_singleton, List.not_mem_nil, or_false] at hp
  rcases hp with rfl | rfl | rfl | rfl | rfl
  · exact ⟨key .E s1, key .E s2, hfmt .E⟩
  · exact ⟨key .W s1, key .W s2, hfmt .W⟩
  · exact ⟨key .I s1, key .I s2, hfmt .I⟩
  · exact ⟨key .D s1, key .D s2, hfmt .D⟩
  · exact ⟨key .V s1, key .V s2, hfmt .V⟩

theorem timestamp_source_changes_only_timestamp_witness :
    LOGW { LOG_LOCAL_LEVEL := LOG_MAX, LOG_CONFIG_TIMESTAMP := LOG_TIMESTAMP, PRIu32 := "u" }
        "APP" "up" []
        (log_set_timestamp (some (fun l => (1000, l))) (State.init (recording_vprintf 0))) []
      = some [("\x1b[33mW (%u) %s: up\x1b[0m\r\n", va_start [.uint 1000, .str "APP"])] ∧
    LOGW { LOG_LOCAL_LEVEL := LOG_MAX, LOG_CONFIG_TIMESTAMP := LOG_TIMESTAMP, PRIu32 := "u" }
        "APP" "up" []
        (log_set_timestamp (some (fun l => (2 ^ 32 + 5, l))) (State.init (recording_vprintf 0)))
        []
      = some [("\x1b[33mW (%u) %s: up\x1b[0m\r\n", va_start [.uint 5, .str "APP"])] := by
  have h := timestamp_source_changes_only_timestamp
    { LOG_LOCAL_LEVEL := LOG_MAX, LOG_CONFIG_TIMESTAMP := LOG_TIMESTAMP, PRIu32 := "u" }
    "APP" "up" [] (State.init (recording_vprintf 0)) [] (recording_vprintf 0)
    (fun l => (1000, l)) (fun l => (2 ^ 32 + 5, l)) (by decide) rfl
    (LOGW, LOG_WARN, .W) (by simp [leveled_logs])
  exact ⟨h.1.trans (by decide), h.2.1.trans (by decide)⟩

end LogLevels
